import Mathlib

/-!
Verification development for the `locals-only-telegram-bot` repository.

The definitions below are a shallow embedding of the Python sources:

* `src/ai_extractor.py` — the extraction adapter (`extract_entity_info_with_ai`,
  `get_confidence_threshold`), embedded as `LocalsBot.extract_entity_info_with_ai`
  together with its post-response processing and type-coercion step;
* `src/service.py` — the entity schema registry (`BaseEntity.get_structure` and the
  per-kind overrides), the storage operations (`BaseEntity.update`,
  `MediaGroup.create`/`add_image`, `LocalsUser`), and
  `ServiceManager.add_user_to_community_if_not_exists`;
* `src/common_utils.py` — `extract_entity_type_from_hashtag` (Python
  `re.findall(r'(#\w+)', ...)` plus `str.replace`/`str.strip`);
* `src/group_handler.py` — `handle_group_message` / `handle_hashtag`;
* `src/bot_endpoints.py` — `handle_telegram_event`.

Python values that flow through the pipeline are modelled by `PyVal`; Python
`dict`s are association lists with Python's insertion-order/update semantics
(`dictUpdate`); exceptions are modelled with `Except`, distinguishing exception
classes only as far as the sources' `except` clauses do.  CPython `float` is
modelled by `Rat`: no claim below depends on binary floating-point rounding,
only on the identity `float(x) == x` for an `x` that is already a `float`,
which holds in either representation.
-/

namespace LocalsBot

/-- The semantic types that occur in the entity schemas
(`str`, `int`, `float`, `bool`, `datetime`, `list`, `dict` in the source). -/
inductive PyType where
  | str
  | int
  | float
  | bool
  | datetime
  | list
  | dict
deriving DecidableEq, Repr

/-- Python runtime values, as far as the pipeline inspects them.
`datetime` values are abstracted to an opaque numeric timestamp: no claim
depends on calendar structure. `float` is modelled by `Rat` (see file header). -/
inductive PyVal where
  | str (s : String)
  | int (n : Int)
  | float (q : Rat)
  | bool (b : Bool)
  | datetime (t : Int)
  | list (xs : List PyVal)
  | dict (kvs : List (String × PyVal))
  | none
deriving Repr

/-- Structural decidable equality for `PyVal` (the derived instance does not
handle the nested `List` occurrences). -/
def PyVal.beq : PyVal → PyVal → Bool
  | .str a, .str b => a = b
  | .int a, .int b => a = b
  | .float a, .float b => a = b
  | .bool a, .bool b => a = b
  | .datetime a, .datetime b => a = b
  | .list xs, .list ys => listBeq xs ys
  | .dict xs, .dict ys => dictBeq xs ys
  | .none, .none => true
  | _, _ => false
where
  listBeq : List PyVal → List PyVal → Bool
    | [], [] => true
    | x :: xs, y :: ys => PyVal.beq x y && listBeq xs ys
    | _, _ => false
  dictBeq : List (String × PyVal) → List (String × PyVal) → Bool
    | [], [] => true
    | (k, x) :: xs, (l, y) :: ys => k = l && PyVal.beq x y && dictBeq xs ys
    | _, _ => false

mutual

theorem PyVal.beq_refl : (v : PyVal) → PyVal.beq v v = true
  | .str _ => by simp [PyVal.beq]
  | .int _ => by simp [PyVal.beq]
  | .float _ => by simp [PyVal.beq]
  | .bool _ => by simp [PyVal.beq]
  | .datetime _ => by simp [PyVal.beq]
  | .list xs => by simp [PyVal.beq, PyVal.beq_refl_list xs]
  | .dict xs => by simp [PyVal.beq, PyVal.beq_refl_dict xs]
  | .none => by simp [PyVal.beq]

theorem PyVal.beq_refl_list : (xs : List PyVal) → PyVal.beq.listBeq xs xs = true
  | [] => by simp [PyVal.beq.listBeq]
  | x :: xs => by
      simp [PyVal.beq.listBeq, PyVal.beq_refl x, PyVal.beq_refl_list xs]

theorem PyVal.beq_refl_dict : (xs : List (String × PyVal)) →
    PyVal.beq.dictBeq xs xs = true
  | [] => by simp [PyVal.beq.dictBeq]
  | (k, x) :: xs => by
      simp [PyVal.beq.dictBeq, PyVal.beq_refl x, PyVal.beq_refl_dict xs]

end

mutual

theorem PyVal.eq_of_beq : {a b : PyVal} → PyVal.beq a b = true → a = b
  | .str _, .str _, h => by
      simpa [PyVal.beq] using h
  | .int _, .int _, h => by simpa [PyVal.beq] using h
  | .float _, .float _, h => by simpa [PyVal.beq] using h
  | .bool _, .bool _, h => by simpa [PyVal.beq] using h
  | .datetime _, .datetime _, h => by simpa [PyVal.beq] using h
  | .list xs, .list ys, h => by
      have : xs = ys := PyVal.eq_of_beq_list (by simpa [PyVal.beq] using h)
      simp [this]
  | .dict xs, .dict ys, h => by
      have : xs = ys := PyVal.eq_of_beq_dict (by simpa [PyVal.beq] using h)
      simp [this]
  | .none, .none, _ => rfl
  | .str _, .int _, h => by simp [PyVal.beq] at h
  | .str _, .float _, h => by simp [PyVal.beq] at h
  | .str _, .bool _, h => by simp [PyVal.beq] at h
  | .str _, .datetime _, h => by simp [PyVal.beq] at h
  | .str _, .list _, h => by simp [PyVal.beq] at h
  | .str _, .dict _, h => by simp [PyVal.beq] at h
  | .str _, .none, h => by simp [PyVal.beq] at h
  | .int _, .str _, h => by simp [PyVal.beq] at h
  | .int _, .float _, h => by simp [PyVal.beq] at h
  | .int _, .bool _, h => by simp [PyVal.beq] at h
  | .int _, .datetime _, h => by simp [PyVal.beq] at h
  | .int _, .list _, h => by simp [PyVal.beq] at h
  | .int _, .dict _, h => by simp [PyVal.beq] at h
  | .int _, .none, h => by simp [PyVal.beq] at h
  | .float _, .str _, h => by simp [PyVal.beq] at h
  | .float _, .int _, h => by simp [PyVal.beq] at h
  | .float _, .bool _, h => by simp [PyVal.beq] at h
  | .float _, .datetime _, h => by simp [PyVal.beq] at h
  | .float _, .list _, h => by simp [PyVal.beq] at h
  | .float _, .dict _, h => by simp [PyVal.beq] at h
  | .float _, .none, h => by simp [PyVal.beq] at h
  | .bool _, .str _, h => by simp [PyVal.beq] at h
  | .bool _, .int _, h => by simp [PyVal.beq] at h
  | .bool _, .float _, h => by simp [PyVal.beq] at h
  | .bool _, .datetime _, h => by simp [PyVal.beq] at h
  | .bool _, .list _, h => by simp [PyVal.beq] at h
  | .bool _, .dict _, h => by simp [PyVal.beq] at h
  | .bool _, .none, h => by simp [PyVal.beq] at h
  | .datetime _, .str _, h => by simp [PyVal.beq] at h
  | .datetime _, .int _, h => by simp [PyVal.beq] at h
  | .datetime _, .float _, h => by simp [PyVal.beq] at h
  | .datetime _, .bool _, h => by simp [PyVal.beq] at h
  | .datetime _, .list _, h => by simp [PyVal.beq] at h
  | .datetime _, .dict _, h => by simp [PyVal.beq] at h
  | .datetime _, .none, h => by simp [PyVal.beq] at h
  | .list _, .str _, h => by simp [PyVal.beq] at h
  | .list _, .int _, h => by simp [PyVal.beq] at h
  | .list _, .float _, h => by simp [PyVal.beq] at h
  | .list _, .bool _, h => by simp [PyVal.beq] at h
  | .list _, .datetime _, h => by simp [PyVal.beq] at h
  | .list _, .dict _, h => by simp [PyVal.beq] at h
  | .list _, .none, h => by simp [PyVal.beq] at h
  | .dict _, .str _, h => by simp [PyVal.beq] at h
  | .dict _, .int _, h => by simp [PyVal.beq] at h
  | .dict _, .float _, h => by simp [PyVal.beq] at h
  | .dict _, .bool _, h => by simp [PyVal.beq] at h
  | .dict _, .datetime _, h => by simp [PyVal.beq] at h
  | .dict _, .list _, h => by simp [PyVal.beq] at h
  | .dict _, .none, h => by simp [PyVal.beq] at h
  | .none, .str _, h => by simp [PyVal.beq] at h
  | .none, .int _, h => by simp [PyVal.beq] at h
  | .none, .float _, h => by simp [PyVal.beq] at h
  | .none, .bool _, h => by simp [PyVal.beq] at h
  | .none, .datetime _, h => by simp [PyVal.beq] at h
  | .none, .list _, h => by simp [PyVal.beq] at h
  | .none, .dict _, h => by simp [PyVal.beq] at h

theorem PyVal.eq_of_beq_list : {xs ys : List PyVal} →
    PyVal.beq.listBeq xs ys = true → xs = ys
  | [], [], _ => rfl
  | [], _ :: _, h => by simp [PyVal.beq.listBeq] at h
  | _ :: _, [], h => by simp [PyVal.beq.listBeq] at h
  | x :: xs, y :: ys, h => by
      simp only [PyVal.beq.listBeq, Bool.and_eq_true] at h
      have h1 := PyVal.eq_of_beq h.1
      have h2 := PyVal.eq_of_beq_list h.2
      simp [h1, h2]

theorem PyVal.eq_of_beq_dict : {xs ys : List (String × PyVal)} →
    PyVal.beq.dictBeq xs ys = true → xs = ys
  | [], [], _ => rfl
  | [], _ :: _, h => by simp [PyVal.beq.dictBeq] at h
  | _ :: _, [], h => by simp [PyVal.beq.dictBeq] at h
  | (k, x) :: xs, (l, y) :: ys, h => by
      simp only [PyVal.beq.dictBeq, Bool.and_eq_true, decide_eq_true_eq] at h
      have h1 := PyVal.eq_of_beq h.1.2
      have h2 := PyVal.eq_of_beq_dict h.2
      simp [h.1.1, h1, h2]

end

instance : DecidableEq PyVal := fun a b =>
  if h : PyVal.beq a b = true then
    .isTrue (PyVal.eq_of_beq h)
  else
    .isFalse (fun hab => h (hab ▸ PyVal.beq_refl a))

instance {ε α : Type} [DecidableEq ε] [DecidableEq α] :
    DecidableEq (Except ε α) := fun a b =>
  match a, b with
  | .error e, .error f =>
    if h : e = f then .isTrue (by rw [h]) else .isFalse (by simp [h])
  | .error _, .ok _ => .isFalse (by simp)
  | .ok _, .error _ => .isFalse (by simp)
  | .ok x, .ok y =>
    if h : x = y then .isTrue (by rw [h]) else .isFalse (by simp [h])

end LocalsBot

namespace LocalsBot

/-! ### Python `dict` and `str` helpers -/

/-- Python `dict.update` on insertion-ordered association lists: keys already
present are overwritten in place, new keys are appended in iteration order. -/
def dictUpdate {α : Type} (base upd : List (String × α)) : List (String × α) :=
  base.map (fun kv =>
    match upd.lookup kv.1 with
    | some v => (kv.1, v)
    | Option.none => kv) ++
  upd.filter (fun kv => (base.lookup kv.1).isNone)

/-- Python's `str.replace(pat, repl)` (all non-overlapping occurrences, left to
right), on character lists.  The fuel argument is the length of the scanned
string; every pattern used by the sources is non-empty, for which this agrees
with CPython. -/
def replaceFuel (pat repl : List Char) : Nat → List Char → List Char
  | 0, s => s
  | _ + 1, [] => []
  | fuel + 1, c :: rest =>
    if pat ≠ [] ∧ pat.isPrefixOf (c :: rest) then
      repl ++ replaceFuel pat repl fuel ((c :: rest).drop pat.length)
    else
      c :: replaceFuel pat repl fuel rest

/-- Python `text.replace(pat, repl)`. -/
def pyReplace (text pat repl : String) : String :=
  String.mk (replaceFuel pat.data repl.data text.data.length text.data)

/-- Python `str.strip()` with no argument: remove leading and trailing
whitespace (the sources only ever strip ASCII whitespace). -/
def pyStrip (s : String) : String :=
  String.mk
    (((s.data.dropWhile Char.isWhitespace).reverse.dropWhile
        Char.isWhitespace).reverse)

/-- Python `str.lower()` (the configured hashtags are ASCII). -/
def pyLower (s : String) : String := String.mk (s.data.map Char.toLower)

/-- Python `str.startswith(pre)`. -/
def pyStartsWith (s pre : String) : Bool := pre.data.isPrefixOf s.data

/-- Characters matched by `\w` in the source's `re.findall(r'(#\w+)', ...)`
(the hashtags configured by the app are ASCII). -/
def isWordChar (c : Char) : Bool := c.isAlphanum || c = '_'

/-! ### Entity schema registry (`src/service.py`)

`get_structure` returns an insertion-ordered `dict` mapping a field name to the
tuple `(semantic type, default-value supplier, is-AI-extracted flag,
description, example)`.  Descriptions and examples are either `None`
(`Option.none`) or string literals. -/

/-- The default-value lambdas that occur in the source structures. -/
inductive DefaultSupplier where
  | freshUuid                -- `lambda: str(uuid.uuid4())`
  | constStr (s : String)    -- `lambda: "Untitled"` etc.
  | noneVal                  -- `lambda: None`
  | now                      -- `lambda: datetime.now()`
deriving DecidableEq, Repr

/-- One field-descriptor tuple of a `get_structure` dictionary.  Every tuple
literal in the source has exactly five components, so the `len(value) < 5`
guard of `extract_entity_info_with_ai` never fires and is not modelled as a
separate arity field. -/
structure FieldSpec where
  ftype : PyType
  dflt : DefaultSupplier
  aiExtracted : Bool
  descr : Option String
  sample : Option String
deriving DecidableEq, Repr

/-- An entity structure: the insertion-ordered field dictionary. -/
abbrev Structure := List (String × FieldSpec)

/-- `BaseEntity.get_structure` (service.py lines 14-26). -/
def BaseEntity.get_structure : Structure :=
  [ ("id", ⟨.str, .freshUuid, false, Option.none, Option.none⟩),
    ("title", ⟨.str, .constStr "Untitled", true, Option.none, Option.none⟩),
    ("mediaGroupId", ⟨.str, .freshUuid, false, Option.none, Option.none⟩),
    ("author", ⟨.str, .noneVal, false, Option.none, Option.none⟩),
    ("userId", ⟨.int, .noneVal, false, Option.none, Option.none⟩),
    ("category", ⟨.str, .constStr "Uncategorized", true, Option.none, Option.none⟩),
    ("description", ⟨.str, .constStr "No description provided", true, Option.none, Option.none⟩),
    ("publishedAt", ⟨.datetime, .now, false, Option.none, Option.none⟩),
    ("communityId", ⟨.str, .noneVal, false, Option.none, Option.none⟩),
    ("messageId", ⟨.str, .noneVal, false, Option.none, Option.none⟩) ]

/-- `LocalsItem.get_structure` (service.py lines 121-131): the base structure
updated with the item-specific field tuples. -/
def LocalsItem.get_structure : Structure :=
  dictUpdate BaseEntity.get_structure
    [ ("price", ⟨.float, .noneVal, true,
        some "The price of the item. Extract a numeric value. If it's mentioned as free, use 0.",
        some "Examples: 10.99, 500, 1500.50"⟩),
      ("currency", ⟨.str, .noneVal, true,
        some "The currency code for the price. Use standard 3-letter currency codes.",
        some "Examples: USD, EUR, GBP, RUB"⟩),
      ("title", ⟨.str, .constStr "Untitled", true,
        some "A short, descriptive title for the item.",
        some "Examples: 'Vintage Guitar', 'iPhone 12 Pro', 'Handmade Pottery Set'"⟩),
      ("category", ⟨.str, .constStr "Uncategorized", true,
        some "The category the item belongs to. Use general terms.",
        some "Examples: 'Electronics', 'Furniture', 'Clothing', 'Books'"⟩),
      ("description", ⟨.str, .constStr "No description provided", true,
        some "A detailed description of the item, including condition, features, etc. Use all provided information to describe the item.",
        some ""⟩) ]

/-- `LocalsService.get_structure` (service.py lines 141-151). -/
def LocalsService.get_structure : Structure :=
  dictUpdate BaseEntity.get_structure
    [ ("price", ⟨.float, .noneVal, true,
        some "The price of the service. Extract a numeric value. Use per hour rate if applicable. If it's mentioned as free, use 0.",
        some "Examples: 25.50, 100, 75.99"⟩),
      ("currency", ⟨.str, .noneVal, true,
        some "The currency code for the price. Use standard 3-letter currency codes.",
        some "Examples: USD, EUR, GBP, RUB"⟩),
      ("title", ⟨.str, .constStr "Untitled", true,
        some "A short, descriptive title for the service.",
        some "Examples: 'Professional Photography', 'House Cleaning', 'Math Tutoring'"⟩),
      ("category", ⟨.str, .constStr "Uncategorized", true,
        some "The category the service belongs to. Use general terms.",
        some "Examples: 'Home Services', 'Education', 'Professional Services', 'Health & Wellness'"⟩),
      ("description", ⟨.str, .constStr "No description provided", true,
        some "A detailed description of the service, including what's offered, experience level, etc. Use all provided information to describe the service.",
        some ""⟩) ]

/-- `LocalsEvent.get_structure` (service.py lines 161-170). -/
def LocalsEvent.get_structure : Structure :=
  dictUpdate BaseEntity.get_structure
    [ ("title", ⟨.str, .constStr "Untitled", true,
        some "A short, descriptive title for the event.",
        some "Examples: 'Community Cleanup Day', 'Local Art Exhibition', 'Neighborhood BBQ'"⟩),
      ("date", ⟨.datetime, .now, true,
        some "The date and time when the event will take place (always in the future from the current date). Use ISO format.",
        some "Format: 'YYYY-MM-DDThh:mm:ss'"⟩),
      ("category", ⟨.str, .constStr "Uncategorized", true,
        some "The category the event belongs to.",
        some "Examples: 'Community Service', 'Arts & Culture', 'Sports & Recreation', 'Education'"⟩),
      ("description", ⟨.str, .constStr "No description provided", true,
        some "A detailed description of the event, including what to expect, who should attend, etc. Use all provided information to describe the event.",
        some ""⟩) ]

/-- `LocalsNews.get_structure` (service.py lines 180-188). -/
def LocalsNews.get_structure : Structure :=
  dictUpdate BaseEntity.get_structure
    [ ("title", ⟨.str, .constStr "Untitled", true,
        some "A short, descriptive headline for the news item.",
        some "Examples: 'New Community Center Opening Next Month', 'Local School Wins State Championship'"⟩),
      ("category", ⟨.str, .constStr "Uncategorized", true,
        some "The category the news item belongs to.",
        some "Examples: 'Local Government', 'Education', 'Business', 'Community'"⟩),
      ("description", ⟨.str, .constStr "No description provided", true,
        some "The main content of the news item, including key details and quotes if available. Use all provided information to describe the news item.",
        some ""⟩) ]

end LocalsBot

namespace LocalsBot

/-! ### Extraction adapter (`src/ai_extractor.py`) -/

/-- `get_confidence_threshold` (ai_extractor.py lines 11-12). -/
def get_confidence_threshold : Int := 30

/-- Python falsiness of the description/example tuple slots: `not value[3]`
is true exactly for `None` and for the empty string. -/
def optStrFalsy : Option String → Bool
  | Option.none => true
  | some s => s.isEmpty

/-- `ai_structure = {k: v for k, v in structure.items() if v[2]}`
(ai_extractor.py line 34). -/
def ai_structure (sch : Structure) : Structure :=
  sch.filter (fun kv => kv.2.aiExtracted)

/-- The fail-fast check of ai_extractor.py lines 36-39: raise `ValueError`
at the first AI-extracted field whose description or example is falsy.
(Each tuple literal in the source has arity 5, so `len(value) < 5` never
holds and only the falsiness tests decide.) -/
def validate_ai_structure (ai : Structure) : Except String Unit :=
  match ai.find? (fun kv => optStrFalsy kv.2.descr || optStrFalsy kv.2.sample) with
  | some kv => .error ("Field '" ++ kv.1 ++ "' is missing description or example")
  | Option.none => .ok ()

/-- `v is None` (Python). -/
def PyVal.isNone : PyVal → Bool
  | .none => true
  | _ => false

/-- Python `del info[k]` on the dict model. -/
def dictRemove (info : List (String × PyVal)) (k : String) : List (String × PyVal) :=
  info.filter (fun kv => kv.1 ≠ k)

/-- Python `info[k] = v` on the dict model: overwrite in place, else append. -/
def dictSet (info : List (String × PyVal)) (k : String) (v : PyVal) :
    List (String × PyVal) :=
  dictUpdate info [(k, v)]

/-- Outcome of the per-field conversion attempt of ai_extractor.py
lines 120-135. -/
inductive CoerceResult where
  | ok (v : PyVal)   -- conversion succeeded; value assigned back
  | drop             -- `ValueError`/`json.JSONDecodeError`: caught, field deleted
  | fatal            -- any other exception (e.g. `TypeError`): escapes the
                     -- per-field handler into the adapter's outer `except`
deriving DecidableEq, Repr

/-- The behaviour of the external parsers the conversion step calls.
`fromiso t = some n` models `datetime.fromisoformat` succeeding on a
well-formed ISO string (the resulting instant abstracted to `n`), `none`
models it raising `ValueError`.  `jsonLoads s` models
`json.loads(s.replace("'", '"'))` in the list branch: `some v` is the parsed
value (of any shape — the source assigns it back unconditionally), `none` is
`json.JSONDecodeError`. -/
structure ParseOracles where
  fromiso : String → Option Int
  jsonLoads : String → Option PyVal

/-- Python `int(s)` for a string argument (sign and surrounding whitespace
allowed, digits only): `Option.none` models `ValueError`. -/
def pyIntOfString (s : String) : Option Int :=
  let t := s.trim
  let core := if t.startsWith "+" || t.startsWith "-" then t.drop 1 else t
  if core.isEmpty || !core.all Char.isDigit then Option.none
  else some (if t.startsWith "-" then -(core.toNat!) else (core.toNat! : Int))

/-- Python `float(s)` for a string argument, modelled for plain decimal
literals (`Option.none` models `ValueError`; exotic forms such as `inf`,
`nan` or exponents are out of scope — no claim depends on them). -/
def pyFloatOfString (s : String) : Option Rat :=
  let t := s.trim
  let core := if t.startsWith "+" || t.startsWith "-" then t.drop 1 else t
  let sign : Rat := if t.startsWith "-" then -1 else 1
  match core.split (· = '.') with
  | [w] =>
    if w.isEmpty || !w.all Char.isDigit then Option.none
    else some (sign * (w.toNat! : Rat))
  | [w, f] =>
    if (w.isEmpty && f.isEmpty) || !w.all Char.isDigit || !f.all Char.isDigit then
      Option.none
    else
      some (sign * ((w.toNat! : Rat) + (f.toNat! : Rat) / ((10 : Rat) ^ f.length)))
  | _ => Option.none

/-- Python truthiness, as used by `bool(v)` (total, never raises). -/
def pyTruthy : PyVal → Bool
  | .str s => !s.isEmpty
  | .int n => n ≠ 0
  | .float q => q ≠ 0
  | .bool b => b
  | .datetime _ => true
  | .list xs => !xs.isEmpty
  | .dict kvs => !kvs.isEmpty
  | .none => false

/-- Python `str(v)`.  Exact CPython text is reproduced for the cases the
pipeline can rely on (`str`, `int`, `bool`, `None`); the remaining cases
produce a best-effort rendering — no claim depends on them. -/
def pyStr : PyVal → String
  | .str s => s
  | .int n => toString n
  | .bool b => if b then "True" else "False"
  | .float q => toString q
  | .datetime t => "datetime<" ++ toString t ++ ">"
  | .list _ => "<list>"
  | .dict _ => "<dict>"
  | .none => "None"

/-- Python `int(v)` on an already-parsed JSON value: ints pass through,
bools map to 0/1, floats truncate toward zero, strings parse or raise
`ValueError`; any other argument raises `TypeError`. -/
def pyIntCast : PyVal → CoerceResult
  | .int n => .ok (.int n)
  | .bool b => .ok (.int (if b then 1 else 0))
  | .float q => .ok (.int (q.num / (q.den : Int)))
  | .str s =>
    match pyIntOfString s with
    | some n => .ok (.int n)
    | Option.none => .drop
  | _ => .fatal

/-- Python `float(v)`: floats pass through, ints and bools widen, strings
parse or raise `ValueError`; any other argument raises `TypeError`. -/
def pyFloatCast : PyVal → CoerceResult
  | .float q => .ok (.float q)
  | .int n => .ok (.float (n : Rat))
  | .bool b => .ok (.float (if b then 1 else 0))
  | .str s =>
    match pyFloatOfString s with
    | some q => .ok (.float q)
    | Option.none => .drop
  | _ => .fatal

/-- The conversion attempt of ai_extractor.py lines 120-132 for one field,
following the source's branch order:
`datetime` → `fromisoformat`; `int`/`float`/`bool`/`str` → the builtin cast;
`list` → parse a string representation, wrap a non-list, keep a list;
`dict` → wrap a non-dict, keep a dict.
`.drop` corresponds to the `except (ValueError, json.JSONDecodeError)` handler
(line 133-135, `del extracted_info[key]`); `.fatal` to any other exception,
which that handler does not catch. -/
def coerceField (o : ParseOracles) (t : PyType) (v : PyVal) : CoerceResult :=
  match t with
  | .datetime =>
    match v with
    | .str s =>
      match o.fromiso s with
      | some n => .ok (.datetime n)
      | Option.none => .drop
    | _ => .fatal   -- `datetime.fromisoformat` raises TypeError on a non-str
  | .int => pyIntCast v
  | .float => pyFloatCast v
  | .bool => .ok (.bool (pyTruthy v))
  | .str => .ok (.str (pyStr v))
  | .list =>
    match v with
    | .str s =>
      match o.jsonLoads s with
      | some parsed => .ok parsed
      | Option.none => .drop
    | .list xs => .ok (.list xs)
    | w => .ok (.list [w])
  | .dict =>
    match v with
    | .dict kvs => .ok (.dict kvs)
    | w => .ok (.dict [("value", w)])

/-- The `for key, (value_type, ...) in ai_structure.items()` loop of
ai_extractor.py lines 117-135: each AI field present in the extracted info is
converted in place, deleted on a caught conversion error, and any uncaught
exception aborts the whole parse (the adapter's outer `except Exception`
returns `None`, modelled as `Option.none`). -/
def coerceFields (o : ParseOracles) :
    Structure → List (String × PyVal) → Option (List (String × PyVal))
  | [], info => some info
  | (k, spec) :: rest, info =>
    match info.lookup k with
    | Option.none => coerceFields o rest info
    | some v =>
      match coerceField o spec.ftype v with
      | .ok v2 => coerceFields o rest (dictSet info k v2)
      | .drop => coerceFields o rest (dictRemove info k)
      | .fatal => Option.none

/-- ai_extractor.py lines 108-137, applied to a successfully parsed response:
remove `null` fields, apply the confidence gate, then coerce the AI fields. -/
def extract_post_process (o : ParseOracles) (ai : Structure)
    (info : List (String × PyVal)) (conf : Int) : Option (List (String × PyVal)) :=
  let cleaned := info.filter (fun kv => !kv.2.isNone)
  if conf < get_confidence_threshold then Option.none
  else coerceFields o ai cleaned

/-- `extract_entity_info_with_ai` (ai_extractor.py lines 21-144) as a function
of the entity schema and of the external service's parsed response.
`resp = Option.none` models a response whose JSON cannot be parsed or lacks
the expected keys (every such failure is caught and yields `None`);
`resp = some (info, conf)` models a parse into an `extracted_info` map and a
`confidence_score`.  The `Except.error` case is the `ValueError` raised by the
fail-fast schema check *before* the external service is called — it escapes
the function, since only the response-parsing block sits inside `try`. -/
def extract_entity_info_with_ai (o : ParseOracles) (sch : Structure)
    (resp : Option (List (String × PyVal) × Int)) :
    Except String (Option (List (String × PyVal))) :=
  let ai := ai_structure sch
  match validate_ai_structure ai with
  | .error e => .error e
  | .ok () =>
    .ok (match resp with
         | Option.none => Option.none
         | some (info, conf) => extract_post_process o ai info conf)

end LocalsBot

namespace LocalsBot

/-! ### Hashtag router (`src/common_utils.py` lines 252-263) -/

/-- The scanning loop of `re.findall(r'(#\w+)', text)`.  The fuel argument
makes the recursion structural; it is initialised to the length of the
scanned text, which suffices because every step consumes at least one
character (`dropWhile` never lengthens its input). -/
def findHashtagsGo : Nat → List Char → List String
  | 0, _ => []
  | _, [] => []
  | fuel + 1, c :: rest =>
    if c = '#' then
      let w := rest.takeWhile isWordChar
      if w.isEmpty then findHashtagsGo fuel rest
      else ("#" ++ String.mk w) :: findHashtagsGo fuel (rest.dropWhile isWordChar)
    else findHashtagsGo fuel rest

/-- `re.findall(r'(#\w+)', text)`: every `#` followed by a maximal non-empty
run of word characters, in text order (a bare `#` matches nothing). -/
def findHashtags (l : List Char) : List String :=
  findHashtagsGo l.length l

/-- The per-community hashtag configuration (`entitySettings`). -/
structure EntitySettings where
  eventHashtag : String
  itemHashtag : String
  serviceHashtag : String
  newsHashtag : String
deriving DecidableEq, Repr

/-- The default `entitySettings` literal of group_handler.py lines 92-97. -/
def defaultEntitySettings : EntitySettings :=
  ⟨"#event", "#item", "#service", "#news"⟩

/-- `entity_settings.items()`, in the insertion order of the default literal
(the dict iteration order; which key wins matters only if two kinds are
configured with the same hashtag string). -/
def EntitySettings.items (es : EntitySettings) : List (String × String) :=
  [("eventHashtag", es.eventHashtag), ("itemHashtag", es.itemHashtag),
   ("serviceHashtag", es.serviceHashtag), ("newsHashtag", es.newsHashtag)]

/-- `extract_entity_type_from_hashtag` (common_utils.py lines 252-263):
the first hashtag of the lowercased text that equals one of the four
configured hashtags (lowercased) is mapped back to its entity kind
(`key.replace('Hashtag', '')`); the returned hashtag literal keeps its
leading `#`, exactly as captured by the regex group. -/
def extract_entity_type_from_hashtag (text : String) (es : EntitySettings) :
    Option (String × String) :=
  let valid := [pyLower es.eventHashtag, pyLower es.newsHashtag,
                pyLower es.itemHashtag, pyLower es.serviceHashtag]
  (findHashtags (pyLower text).data).findSome? fun tag =>
    if valid.contains tag then
      es.items.findSome? fun kv =>
        if pyLower kv.2 = tag then some (pyReplace kv.1 "Hashtag" "", tag)
        else Option.none
    else Option.none

/-- group_handler.py line 111: the text handed to the extraction adapter,
`text.replace(f'#{hashtag}', '').strip()` — note the formatted pattern
prefixes a second `#` onto the already-`#`-prefixed matched hashtag. -/
def text_without_hashtag (text hashtag : String) : String :=
  pyStrip (pyReplace text ("#" ++ hashtag) "")

/-! ### Stored state (`src/service.py` collections) -/

/-- A document of the `users` collection (`LocalsUser`). -/
structure UserRec where
  uid : Int
  communities : List String
  chatId : Option Int
  notificationsEnabled : Bool
deriving DecidableEq, Repr

/-- A document of the `communities` collection (`LocalsCommunity`);
`status` and `entitySettings` are optional because the handlers read them
with `.get(...)` defaults. -/
structure Community where
  id : String
  chatId : Int
  name : String
  language : Option String
  status : Option String
  entitySettings : Option EntitySettings
deriving DecidableEq, Repr

/-- A stored document: field name to value, in insertion order. -/
abbrev Doc := List (String × PyVal)

/-- The document store: the collections the ingestion pipeline touches.
Entity documents are tagged with their collection name
(`events`/`news`/`items`/`services`). -/
structure Store where
  communities : List Community
  users : List UserRec
  mediaGroups : List (String × List String)
  entities : List (String × Doc)
deriving DecidableEq, Repr

/-- `LocalsCommunity.get_by_chat_id` (service.py lines 90-92). -/
def get_community_by_chat_id (st : Store) (chatId : Int) : Option Community :=
  st.communities.find? (fun c => c.chatId = chatId)

/-- `ServiceManager.add_user_to_community_if_not_exists`
(service.py lines 440-446): create the user with the single membership if
absent; otherwise `$addToSet` the community id (a no-op when already a
member).  `LocalsUser.create` initialises `chatId = None` and
`notificationsEnabled = False`. -/
def add_user_to_community_if_not_exists (st : Store) (uid : Int) (cid : String) :
    Store :=
  match st.users.find? (fun u => u.uid = uid) with
  | Option.none =>
    { st with users := st.users ++ [⟨uid, [cid], Option.none, false⟩] }
  | some u =>
    if cid ∈ u.communities then st
    else
      { st with users := st.users.map fun v =>
          if v.uid = uid then { v with communities := v.communities ++ [cid] } else v }

/-- `MediaGroup.create` (service.py lines 240-246). -/
def media_group_create (st : Store) (id : String) (images : List String) : Store :=
  { st with mediaGroups := st.mediaGroups ++ [(id, images)] }

/-- `MediaGroup.add_image` (service.py lines 248-249): `update_one` with
`$push` appends to the images array of the matching document; when no
document has this id the update matches nothing and is a no-op. -/
def media_group_add_image (st : Store) (id : String) (image : String) : Store :=
  { st with mediaGroups :=
      st.mediaGroups.map fun g => if g.1 = id then (g.1, g.2 ++ [image]) else g }

/-! ### Inbound messages and the external world -/

/-- The parts of a Telegram group message the handlers read.  `username` is
modelled as always present: `handle_hashtag` reads
`message['from']['username']` unconditionally, so a message lacking it is
outside the modelled shape.  `document` carries the document's
`mime_type` (`.get('mime_type', '')` in the source). -/
structure GroupMsg where
  chatId : Int
  chatTitle : String
  messageId : Int
  fromId : Int
  username : String
  isBot : Bool
  firstName : String
  lastName : Option String
  languageCode : Option String
  text : Option String
  caption : Option String
  hasPhoto : Bool
  document : Option String
  mediaGroupId : Option String
deriving DecidableEq, Repr

/-- The external collaborators of one message-handling run.
`aiResponse prompt` is the parsed extraction-service response for the given
input text (`Option.none` = unparseable); `uuidFor k` is the value
`str(uuid.uuid4())` produces when the default of field `k` is invoked (each
invocation is fresh and random; the model draws it from this map — defaults
are invoked at most once per field per message); `nowTime` abstracts
`datetime.now()`; `imageUrl` is the result of `process_image_or_document`
for this message (`Option.none` = no usable image or a failed
download/upload). -/
structure ExternalWorld where
  parse : ParseOracles
  aiResponse : String → Option (List (String × PyVal) × Int)
  uuidFor : String → String
  nowTime : Int
  imageUrl : Option String

/-- Evaluate a schema default supplier (lazily, at use time). -/
def evalDefault (w : ExternalWorld) (k : String) : DefaultSupplier → PyVal
  | .freshUuid => .str (w.uuidFor k)
  | .constStr s => .str s
  | .noneVal => .none
  | .now => .datetime w.nowTime

end LocalsBot

namespace LocalsBot

/-! ### Ingestion orchestrator (`src/group_handler.py`) -/

/-- The value group_handler.py lines 130-146 assigns to a schema field absent
from the extraction result: message-derived values for the identity fields,
otherwise the schema's default supplier, invoked lazily. -/
def populate_value (w : ExternalWorld) (msg : GroupMsg) (communityId : String)
    (k : String) (spec : FieldSpec) : PyVal :=
  if k = "author" then
    .str (pyStrip (msg.firstName ++ " " ++ (msg.lastName.getD "")))
  else if k = "userId" then .int msg.fromId
  else if k = "images" then
    match w.imageUrl with
    | some u => .list [.str u]
    | Option.none => evalDefault w k spec.dflt
  else if k = "communityId" then .str communityId
  else if k = "messageId" then .int msg.messageId
  else if k = "mediaGroupId" then
    match msg.mediaGroupId with
    | some m => if m.isEmpty then evalDefault w k spec.dflt else .str m
    | Option.none => evalDefault w k spec.dflt
  else evalDefault w k spec.dflt

/-- group_handler.py lines 128-146: walk the schema in order and add every
field missing from the extracted info (new dict keys append at the end). -/
def populate_missing_fields (w : ExternalWorld) (msg : GroupMsg)
    (communityId : String) (sch : Structure)
    (extracted : List (String × PyVal)) : List (String × PyVal) :=
  sch.foldl
    (fun info kv =>
      if (info.lookup kv.1).isSome then info
      else info ++ [(kv.1, populate_value w msg communityId kv.1 kv.2)])
    extracted

/-- `get_entity_class` (common_utils.py lines 178-188) together with the
collection each entity class persists into. -/
def entity_class_for : String → Option (String × Structure)
  | "event" => some ("events", LocalsEvent.get_structure)
  | "news" => some ("news", LocalsNews.get_structure)
  | "item" => some ("items", LocalsItem.get_structure)
  | "service" => some ("services", LocalsService.get_structure)
  | _ => Option.none

/-- The parameter names of the kind-specific `ServiceManager.create_*`
operation (service.py lines 348, 363, 378, 393); `**extracted_info` must bind
them exactly, else Python raises `TypeError`. -/
def create_params : String → List String
  | "events" =>
    ["id", "title", "date", "author", "userId", "publishedAt", "category",
     "description", "communityId", "messageId", "mediaGroupId"]
  | "news" =>
    ["id", "title", "author", "userId", "publishedAt", "category",
     "description", "communityId", "messageId", "mediaGroupId"]
  | _ =>
    ["id", "title", "price", "currency", "author", "userId", "publishedAt",
     "category", "description", "communityId", "messageId", "mediaGroupId"]

/-- `BaseEntity.create` (service.py lines 28-42): the inserted document — the
nine named fields in literal order, then the keyword arguments appended by
`entity.update(kwargs)`. -/
def base_entity_create_doc (id title author userId publishedAt category
    description communityId messageId : PyVal)
    (kwargs : List (String × PyVal)) : Doc :=
  dictUpdate
    [("_id", id), ("title", title), ("author", author), ("userId", userId),
     ("publishedAt", publishedAt), ("category", category),
     ("description", description), ("communityId", communityId),
     ("messageId", messageId)]
    kwargs

/-- The document `service_manager.create_<kind>(**info)` inserts, or
`TypeError` when the keys of `info` do not bind the operation's parameters
exactly. -/
def create_entity_doc (collection : String) (info : List (String × PyVal)) :
    Except String Doc :=
  let params := create_params collection
  if params.all (fun p => (info.lookup p).isSome)
      && info.all (fun kv => params.contains kv.1) then
    let get := fun k => (info.lookup k).getD PyVal.none
    .ok (base_entity_create_doc (get "id") (get "title") (get "author")
      (get "userId") (get "publishedAt") (get "category") (get "description")
      (get "communityId") (get "messageId")
      (match collection with
       | "events" => [("date", get "date"), ("mediaGroupId", get "mediaGroupId")]
       | "news" => [("mediaGroupId", get "mediaGroupId")]
       | _ => [("price", get "price"), ("currency", get "currency"),
               ("mediaGroupId", get "mediaGroupId")]))
  else .error "TypeError"

/-- The observable outcome of handling one group message. -/
inductive Outcome where
  | ignored                       -- an early return before the hashtag match
  | commandHandled (cmd : String) -- the `/`-command branch completed
  | noMatch                       -- hashtag path: no configured hashtag matched
  | noExtraction                  -- the adapter returned `None`
  | created (collection : String) -- entity persisted, reaction set
  | createFailed                  -- persistence raised; caught and logged
  | raised (e : String)           -- an exception escaped the handler
                                  -- (caught only by the webhook endpoint)
deriving DecidableEq, Repr

/-- The `try`/`except` around persistence (group_handler.py lines 148-162):
a successful creation appends the document and sets the acknowledgement
reaction; any exception is logged and swallowed, leaving the handler to
return normally. -/
def try_persist (st : Store) (collection : String) (r : Except String Doc) :
    Store × Outcome :=
  match r with
  | .ok doc =>
    ({ st with entities := st.entities ++ [(collection, doc)] },
     .created collection)
  | .error _ => (st, .createFailed)

/-- `handle_hashtag` (group_handler.py lines 68-162). -/
def handle_hashtag (w : ExternalWorld) (st : Store) (msg : GroupMsg)
    (isCaption : Bool) : Store × Outcome :=
  let text := (if isCaption then msg.caption else msg.text).getD ""
  if msg.username = "GroupAnonymousBot" then (st, .ignored)
  else
    match get_community_by_chat_id st msg.chatId with
    | Option.none => (st, .ignored)
    | some community =>
      if (community.status.getD "SETUP") ≠ "READY" then (st, .ignored)
      else
        let st := add_user_to_community_if_not_exists st msg.fromId community.id
        let es := community.entitySettings.getD defaultEntitySettings
        match extract_entity_type_from_hashtag text es with
        | Option.none => (st, .noMatch)
        | some (entityType, hashtag) =>
          match entity_class_for entityType with
          | Option.none => (st, .ignored)
          | some (collection, sch) =>
            let prompt := text_without_hashtag text hashtag
            match extract_entity_info_with_ai w.parse sch (w.aiResponse prompt) with
            | .error e => (st, .raised e)
            | .ok Option.none => (st, .noExtraction)
            | .ok (some extracted) =>
              let info := populate_missing_fields w msg community.id sch extracted
              try_persist st collection (create_entity_doc collection info)

/-- `handle_command` (group_handler.py lines 34-66): create the community on
first contact (status `SETUP`), upsert the sender's membership unless
anonymous, then dispatch `/start`, `/help`, `/app` (replies are external side
effects, not stored state). -/
def handle_command (w : ExternalWorld) (st : Store) (msg : GroupMsg)
    (command : String) : Store × Outcome :=
  let found := get_community_by_chat_id st msg.chatId
  let community : Community :=
    match found with
    | some c => c
    | Option.none =>
      { id := w.uuidFor "community", chatId := msg.chatId, name := msg.chatTitle,
        language :=
          some (if pyStartsWith (msg.languageCode.getD "en") "ru" then "ru"
                else "en"),
        status := some "SETUP", entitySettings := Option.none }
  let st :=
    match found with
    | some _ => st
    | Option.none => { st with communities := st.communities ++ [community] }
  let st :=
    if msg.username ≠ "GroupAnonymousBot" then
      add_user_to_community_if_not_exists st msg.fromId community.id
    else st
  (st, .commandHandled (String.mk (command.data.takeWhile (· ≠ '@'))))

/-- `handle_group_message` (group_handler.py lines 11-32). -/
def handle_group_message (w : ExternalWorld) (st : Store) (msg : GroupMsg) :
    Store × Outcome :=
  if msg.isBot && msg.username ≠ "GroupAnonymousBot" then (st, .ignored)
  else
    let text := msg.text.getD ""
    if pyStartsWith text "/" then handle_command w st msg text
    else if text.data.contains '#' then handle_hashtag w st msg false
    else if (msg.hasPhoto || msg.document.isSome)
        && (match msg.caption with
            | some c => c.data.contains '#'
            | Option.none => false) then
      if msg.document.isSome
          && !(pyStartsWith (msg.document.getD "") "image/") then
        (st, .ignored)
      else handle_hashtag w st msg true
    else (st, .ignored)

/-- `handle_telegram_event` (bot_endpoints.py lines 13-35) for a group-chat
message: whatever the handler does — including raising — the endpoint's
catch-all `except` swallows it and the response is `{"status": "ok"}, 200`. -/
def handle_telegram_event (w : ExternalWorld) (st : Store) (msg : GroupMsg) :
    Store × (Nat × String) :=
  ((handle_group_message w st msg).1, (200, "ok"))

end LocalsBot

namespace LocalsBot

/-! ### Media correlator follow-up path (spec §4.4) -/

/-- Modelled from the spec: the Media Correlator's follow-up-image dispatch is
missing from the checked-in sources — only the storage operations
`MediaGroup.create`/`MediaGroup.add_image` (service.py lines 240-249) and
their unused `ServiceManager` wrappers exist.  Spec §4.4: "if a media group
with that identifier already exists (created either by the seed path or
pre-provisioned by an upload-link flow), append the new image; otherwise the
message is discarded (no orphan group is created from a bare follow-up
image)". -/
def handle_media_group_fragment (st : Store) (groupId : String)
    (image : String) : Store :=
  if (st.mediaGroups.lookup groupId).isSome then
    media_group_add_image st groupId image
  else st

/-! ### Notification fan-out (spec §4.6) -/

/-- Modelled from the spec: the batch size of Notification Fan-out —
"fixed-size batches (30 recipients per batch)" (spec §4.6).  The fan-out loop
itself is missing from the checked-in sources; only the recipient query
`LocalsUser.search` (service.py lines 218-219) exists. -/
def notification_batch_size : Nat := 30

/-- Modelled from the spec: the eligible recipients of a fan-out — "all
community members with notifications enabled and a bound notification
channel" (spec §4.6) — expressed over the `users` collection that
`LocalsUser.search` filters by community membership. -/
def eligible_recipients (users : List UserRec) (communityId : String) :
    List UserRec :=
  users.filter fun u =>
    u.communities.contains communityId && u.notificationsEnabled && u.chatId.isSome

/-- An observable step of the fan-out loop: one outbound send, or the fixed
one-second pause between consecutive batches. -/
inductive FanEvent where
  | send (chatId : Int)
  | pause
deriving DecidableEq, Repr

/-- Modelled from the spec: the batching of the fan-out loop (spec §4.6). -/
def fan_out_batches : List UserRec → List (List UserRec)
  | [] => []
  | u :: rest =>
    (u :: rest).take notification_batch_size ::
      fan_out_batches ((u :: rest).drop notification_batch_size)
termination_by rs => rs.length
decreasing_by
  simp only [List.length_drop, List.length_cons, notification_batch_size]
  omega

/-- Modelled from the spec: the event trace of one fan-out run — "send one
'new content' message per recipient within a batch without delay, then pause
a fixed interval (1 second) before starting the next batch" (spec §4.6). -/
def fan_out_trace : List UserRec → List FanEvent
  | [] => []
  | u :: rest =>
    ((u :: rest).take notification_batch_size).map
        (fun v => FanEvent.send (v.chatId.getD 0)) ++
      (if ((u :: rest).drop notification_batch_size).isEmpty then []
       else FanEvent.pause ::
         fan_out_trace ((u :: rest).drop notification_batch_size))
termination_by rs => rs.length
decreasing_by
  simp only [List.length_drop, List.length_cons, notification_batch_size]
  omega

/-! ### `BaseEntity.update` (`src/service.py` lines 63-78) -/

/-- The filter document `{_id: id, communityId: communityId, userId: userId}`
used by `BaseEntity.update` and `BaseEntity.delete`. -/
def matches_update_filter (d : Doc) (id communityId : String) (userId : Int) :
    Bool :=
  d.lookup "_id" = some (.str id)
    && d.lookup "communityId" = some (.str communityId)
    && d.lookup "userId" = some (.int userId)

/-- `format_entity` (service.py lines 482-485): add `id = str(_id)` (a new
key, appended) and pop `_id`. -/
def format_entity (d : Doc) : Doc :=
  dictRemove (dictSet d "id" (.str (pyStr ((d.lookup "_id").getD .none)))) "_id"

/-- `find_one_and_update` with `$set` and `ReturnDocument.AFTER`: rewrite the
first matching document and return it; `Option.none` when nothing matched. -/
def update_first (p : Doc → Bool) (upd : List (String × PyVal)) :
    List Doc → List Doc × Option Doc
  | [] => ([], Option.none)
  | d :: rest =>
    if p d then ((dictUpdate d upd) :: rest, some (dictUpdate d upd))
    else
      let (r, o) := update_first p upd rest
      (d :: r, o)

/-- The document stored (and returned) after `BaseEntity.update` applies the
non-`None` keyword arguments to a matched document. -/
def updated_doc (d : Doc) (kwargs : List (String × PyVal)) : Doc :=
  dictUpdate d (kwargs.filter fun kv => !kv.2.isNone)

/-- `BaseEntity.update` (service.py lines 63-78): drop the `None`-valued
keyword arguments (`{k: v for k, v in kwargs.items() if v is not None}`); if
none remain, read the matching document back without touching it, otherwise
`$set` the remaining fields on it; the result is `format_entity` of the
(unchanged or updated) document.  When no document matches the filter,
`format_entity(None)` raises (`TypeError`), modelled as the `Except.error`
case. -/
def base_entity_update (coll : List Doc) (id communityId : String)
    (userId : Int) (kwargs : List (String × PyVal)) :
    List Doc × Except String Doc :=
  let update_fields := kwargs.filter fun kv => !kv.2.isNone
  if update_fields.isEmpty then
    match coll.find? (fun d => matches_update_filter d id communityId userId) with
    | some d => (coll, .ok (format_entity d))
    | Option.none => (coll, .error "TypeError")
  else
    match update_first (fun d => matches_update_filter d id communityId userId)
        update_fields coll with
    | (coll2, some d) => (coll2, .ok (format_entity d))
    | (coll2, Option.none) => (coll2, .error "TypeError")

end LocalsBot

namespace LocalsBot

/-! ### Auxiliary predicates and concrete fixtures -/

/-- `isinstance(v, t)` for the schema's semantic types (Python's `bool` is a
subclass of `int`, but the schemas never pair an `int` field with a `bool`
value in any claim, so the strict tag comparison is used). -/
def PyVal.hasType : PyVal → PyType → Bool
  | .str _, .str => true
  | .int _, .int => true
  | .float _, .float => true
  | .bool _, .bool => true
  | .datetime _, .datetime => true
  | .list _, .list => true
  | .dict _, .dict => true
  | _, _ => false

/-- Parse oracles that fail on everything — sufficient wherever a concrete
run never reaches them. -/
def trivialOracles : ParseOracles :=
  ⟨fun _ => Option.none, fun _ => Option.none⟩

/-- A minimal schema whose one AI-extracted field passes the fail-fast
check. -/
def demoSchema : Structure :=
  [("title", ⟨.str, .constStr "Untitled", true,
    some "A short title.", some "Example: 'Bike'"⟩)]

/-- A fixed external world for concrete runs: the extraction service is
unreachable, every uuid default yields `"fresh-uuid"`, the clock reads 0 and
the message carries no image. -/
def demoWorld : ExternalWorld :=
  ⟨trivialOracles, fun _ => Option.none, fun _ => "fresh-uuid", 0, Option.none⟩

/-- A READY community bound to chat 100, with default hashtag settings. -/
def demoCommunity : Community :=
  ⟨"c1", 100, "Demo", some "en", some "READY", Option.none⟩

/-- A store holding only `demoCommunity`. -/
def demoStore : Store := ⟨[demoCommunity], [], [], []⟩

/-- `demoStore` with user 7 already a member of the community. -/
def demoStoreMember : Store :=
  ⟨[demoCommunity], [⟨7, ["c1"], Option.none, false⟩], [], []⟩

/-- `demoStore` with one media group `g1` holding one image. -/
def demoStoreWithGroup : Store :=
  ⟨[demoCommunity], [], [("g1", ["img0"])], []⟩

/-- A plain text message from user 7 whose only hashtag, `#foo`, matches no
configured hashtag; it carries no image and no media-group identifier. -/
def demoMsg : GroupMsg :=
  ⟨100, "Demo", 1, 7, "alice", false, "Alice", Option.none, Option.none,
   some "hello #foo", Option.none, false, Option.none, Option.none⟩

/-- 65 users, all members of community `c1` with notifications enabled and a
bound chat. -/
def demoUsers65 : List UserRec :=
  (List.range 65).map fun i => ⟨(i : Int), ["c1"], some 777, true⟩

/-- A stored item document owned by user 7 in community `c1`. -/
def demoDoc : Doc :=
  [("_id", .str "e1"), ("title", .str "Old title"), ("author", .str "Alice"),
   ("userId", .int 7), ("category", .str "Books"),
   ("description", .str "Old description"), ("communityId", .str "c1"),
   ("messageId", .int 1), ("price", .float 5), ("currency", .str "USD"),
   ("mediaGroupId", .str "g1")]

end LocalsBot

namespace LocalsBot

/-! ### Lemmas about the dict model -/

theorem lookup_append_of_some {α : Type} {l₁ : List (String × α)}
    (l₂ : List (String × α)) {k : String} {v : α}
    (h : l₁.lookup k = some v) : (l₁ ++ l₂).lookup k = some v := by
  induction l₁ with
  | nil => simp [List.lookup] at h
  | cons kv t ih =>
    by_cases hk : k = kv.1
    · have hb : (k == kv.1) = true := beq_iff_eq.mpr hk
      simp only [List.cons_append, List.lookup, hb] at h ⊢
      exact h
    · have hb : (k == kv.1) = false := beq_eq_false_iff_ne.mpr hk
      simp only [List.cons_append, List.lookup, hb] at h ⊢
      exact ih h

theorem lookup_append_of_none {α : Type} {l₁ : List (String × α)}
    (l₂ : List (String × α)) {k : String}
    (h : l₁.lookup k = Option.none) : (l₁ ++ l₂).lookup k = l₂.lookup k := by
  induction l₁ with
  | nil => simp
  | cons kv t ih =>
    by_cases hk : k = kv.1
    · have hb : (k == kv.1) = true := beq_iff_eq.mpr hk
      simp only [List.lookup, hb] at h
      exact absurd h (by simp)
    · have hb : (k == kv.1) = false := beq_eq_false_iff_ne.mpr hk
      simp only [List.cons_append, List.lookup, hb] at h ⊢
      exact ih h

/-- Lookup in the overwrite part of `dictUpdate`: keys are preserved, values
come from `upd` when present there. -/
theorem lookup_map_overwrite {α : Type} (base upd : List (String × α))
    (k : String) :
    (base.map (fun kv =>
      match upd.lookup kv.1 with
      | some v => (kv.1, v)
      | Option.none => kv)).lookup k =
      (base.lookup k).map (fun w => (upd.lookup k).getD w) := by
  induction base with
  | nil => simp
  | cons kv t ih =>
    by_cases hk : k = kv.1
    · subst hk
      cases h : upd.lookup kv.1 <;>
        simp [List.lookup, h]
    · have hb : (k == kv.1) = false := beq_eq_false_iff_ne.mpr hk
      cases h : upd.lookup kv.1 <;>
        · simp only [List.map_cons, h, List.lookup, hb]
          exact ih

theorem lookup_filter_new_keys {α : Type} (base upd : List (String × α))
    (k : String) (h : base.lookup k = Option.none) :
    (upd.filter (fun kv => (base.lookup kv.1).isNone)).lookup k =
      upd.lookup k := by
  induction upd with
  | nil => simp
  | cons kv t ih =>
    by_cases hk : k = kv.1
    · subst hk
      simp [List.filter, h, List.lookup]
    · have hb : (k == kv.1) = false := beq_eq_false_iff_ne.mpr hk
      by_cases hkeep : (base.lookup kv.1).isNone
      · simp only [List.filter, hkeep, List.lookup, hb]
        exact ih
      · simp only [List.filter, hkeep]
        simp only [Bool.false_eq_true, if_false, List.lookup, hb]
        exact ih

theorem dictUpdate_lookup_of_base_some {α : Type} {base : List (String × α)}
    (upd : List (String × α)) {k : String} {w : α}
    (h : base.lookup k = some w) :
    (dictUpdate base upd).lookup k = some ((upd.lookup k).getD w) := by
  unfold dictUpdate
  apply lookup_append_of_some
  rw [lookup_map_overwrite base upd k, h]
  rfl

theorem dictUpdate_lookup_of_base_none {α : Type} {base : List (String × α)}
    (upd : List (String × α)) {k : String}
    (h : base.lookup k = Option.none) :
    (dictUpdate base upd).lookup k = upd.lookup k := by
  unfold dictUpdate
  rw [lookup_append_of_none, lookup_filter_new_keys base upd k h]
  rw [lookup_map_overwrite base upd k, h]
  rfl

theorem dictUpdate_nil_right {α : Type} (base : List (String × α)) :
    dictUpdate base [] = base := by
  unfold dictUpdate
  simp [List.lookup]

end LocalsBot

namespace LocalsBot

/-! ### C1 — the confidence gate -/

/-- **C1.** For every extraction-service response (to a schema that passes the
fail-fast check), a confidence score strictly below 30 makes the adapter
return "no extraction" (`None`) regardless of the extracted field content,
while a score of exactly 30 passes the gate: the response's fields — after
null-removal and type coercion — are returned. -/
theorem confidence_gate_boundary (o : ParseOracles) (sch : Structure)
    (info : List (String × PyVal)) (conf : Int)
    (hvalid : validate_ai_structure (ai_structure sch) = .ok ()) :
    (conf < 30 →
      extract_entity_info_with_ai o sch (some (info, conf)) = .ok Option.none) ∧
    extract_entity_info_with_ai o sch (some (info, 30)) =
      .ok (coerceFields o (ai_structure sch)
            (info.filter fun kv => !kv.2.isNone)) ∧
    (∀ out,
      coerceFields o (ai_structure sch) (info.filter fun kv => !kv.2.isNone) =
          some out →
      extract_entity_info_with_ai o sch (some (info, 30)) = .ok (some out)) := by
  simp only [extract_entity_info_with_ai, hvalid, extract_post_process,
    get_confidence_threshold]
  refine ⟨fun hlt => ?_, ?_, fun out hout => ?_⟩
  · rw [if_pos hlt]
  · rw [if_neg (by omega)]
  · rw [if_neg (by omega), hout]

/-- Closed instance of `confidence_gate_boundary`: with a one-field valid
schema, confidence 29 yields `None` and confidence 30 returns the field. -/
theorem confidence_gate_boundary_witness :
    extract_entity_info_with_ai trivialOracles demoSchema
        (some ([("title", PyVal.str "Bike")], 29)) = .ok Option.none ∧
    extract_entity_info_with_ai trivialOracles demoSchema
        (some ([("title", PyVal.str "Bike")], 30)) =
      .ok (some [("title", PyVal.str "Bike")]) :=
  ⟨(confidence_gate_boundary trivialOracles demoSchema
      [("title", PyVal.str "Bike")] 29 (by decide)).1 (by decide),
   (confidence_gate_boundary trivialOracles demoSchema
      [("title", PyVal.str "Bike")] 30 (by decide)).2.2
      [("title", PyVal.str "Bike")] (by decide)⟩

/-! ### C3 — the fail-fast schema check fires on every real schema -/

set_option maxRecDepth 4000 in
/-- **C3** (code bug).  The claim — and the extractor's own fail-fast check —
require every AI-extracted field to carry a non-empty description and a
non-empty example; but in all four schemas the `description` field's example
is the empty string, so `extract_entity_info_with_ai` raises
`ValueError("Field 'description' is missing description or example")` for
every entity kind, deterministically and before the external service is
consulted (the response argument is irrelevant). -/
theorem extracted_description_field_missing_example :
    (validate_ai_structure (ai_structure LocalsItem.get_structure) =
      .error "Field 'description' is missing description or example") ∧
    (validate_ai_structure (ai_structure LocalsService.get_structure) =
      .error "Field 'description' is missing description or example") ∧
    (validate_ai_structure (ai_structure LocalsEvent.get_structure) =
      .error "Field 'description' is missing description or example") ∧
    (validate_ai_structure (ai_structure LocalsNews.get_structure) =
      .error "Field 'description' is missing description or example") ∧
    ((LocalsItem.get_structure.lookup "description").map FieldSpec.sample =
      some (some "")) ∧
    (∀ (o : ParseOracles) (resp : Option (List (String × PyVal) × Int)),
      extract_entity_info_with_ai o LocalsItem.get_structure resp =
        .error "Field 'description' is missing description or example") ∧
    (∀ (o : ParseOracles) (resp : Option (List (String × PyVal) × Int)),
      extract_entity_info_with_ai o LocalsEvent.get_structure resp =
        .error "Field 'description' is missing description or example") :=
  ⟨by decide, by decide, by decide, by decide, by decide,
   fun o resp => rfl, fun o resp => rfl⟩


/-! ### C2 — the hashtag literal is not removed from the adapter input -/

set_option maxRecDepth 4000 in
/-- **C2** (code bug).  The router returns the matched hashtag *with* its
leading `#` (`re.findall(r'(#\w+)')`), but group_handler.py line 111 strips
`f'#{hashtag}'` — a double-`#` pattern that does not occur — so the text
handed to the extraction adapter still contains the hashtag: on
`"Selling bike #item"` the adapter receives `"Selling bike #item"`, not the
claimed `"Selling bike"` (which is what removing the matched literal and
trimming would give). -/
theorem hashtag_literal_not_removed_from_prompt :
    (extract_entity_type_from_hashtag "Selling bike #item"
        defaultEntitySettings = some ("item", "#item")) ∧
    (text_without_hashtag "Selling bike #item" "#item" =
      "Selling bike #item") ∧
    (pyStrip (pyReplace "Selling bike #item" "#item" "") = "Selling bike") ∧
    ("Selling bike #item" ≠ "Selling bike") :=
  ⟨by decide, by decide, by decide, by decide⟩

/-! ### C7 — idempotence of the coercion step -/

/-- **C7** (counterexample).  For a `datetime`-typed field, the coercion step
applied to a value that is already a `datetime` does *not* return that value:
`datetime.fromisoformat` raises `TypeError` on a non-string argument, which
the per-field handler does not catch, so the whole extraction returns `None`
instead of retaining the field. -/
theorem datetime_coercion_not_idempotent :
    (coerceField trivialOracles PyType.datetime (PyVal.datetime 0) =
      CoerceResult.fatal) ∧
    (coerceField trivialOracles PyType.datetime (PyVal.datetime 0) ≠
      CoerceResult.ok (PyVal.datetime 0)) ∧
    (coerceFields trivialOracles
        [("date", ⟨PyType.datetime, DefaultSupplier.now, true,
          some "The date.", some "Format: ISO"⟩)]
        [("date", PyVal.datetime 0)] = Option.none) :=
  ⟨rfl, by decide, rfl⟩

/-- **C7** (amended).  The coercion step is idempotent for the six
non-`datetime` declared types: applying it to a value that already has the
declared type returns that same value and retains the field; for `datetime`
the same situation raises an uncaught `TypeError`
(see `datetime_coercion_not_idempotent`). -/
theorem coercion_idempotent_except_datetime (o : ParseOracles) (t : PyType)
    (v : PyVal) (ht : t ≠ PyType.datetime) (hv : v.hasType t) :
    coerceField o t v = CoerceResult.ok v ∧
    (∀ (k : String) (spec : FieldSpec), spec.ftype = t →
      coerceFields o [(k, spec)] [(k, v)] = some [(k, v)]) := by
  have hcoerce : coerceField o t v = CoerceResult.ok v := by
    cases t <;> cases v <;>
      first
        | rfl
        | exact absurd rfl ht
        | simp [PyVal.hasType] at hv
  refine ⟨hcoerce, fun k spec hspec => ?_⟩
  simp only [coerceFields, List.lookup, beq_self_eq_true, hspec, hcoerce,
    dictSet, dictUpdate]
  simp [List.lookup]

/-- Closed instance of `coercion_idempotent_except_datetime`: an integer
field already holding an integer is returned unchanged and retained. -/
theorem coercion_idempotent_except_datetime_witness :
    coerceField trivialOracles PyType.int (PyVal.int 150) =
      CoerceResult.ok (PyVal.int 150) ∧
    coerceFields trivialOracles
        [("price", ⟨PyType.int, DefaultSupplier.noneVal, true,
          some "The price.", some "150"⟩)]
        [("price", PyVal.int 150)] = some [("price", PyVal.int 150)] :=
  ⟨(coercion_idempotent_except_datetime trivialOracles PyType.int
      (PyVal.int 150) (by decide) (by decide)).1,
   (coercion_idempotent_except_datetime trivialOracles PyType.int
      (PyVal.int 150) (by decide) (by decide)).2 "price"
      ⟨PyType.int, DefaultSupplier.noneVal, true, some "The price.", some "150"⟩
      rfl⟩

end LocalsBot

namespace LocalsBot

/-! ### C4 — media-group fragment correlation -/

theorem lookup_map_append_image (l : List (String × List String))
    (gid img : String) {imgs : List String} (h : l.lookup gid = some imgs) :
    (l.map fun g => if g.1 = gid then (g.1, g.2 ++ [img]) else g).lookup gid =
      some (imgs ++ [img]) := by
  induction l with
  | nil => simp at h
  | cons g t ih =>
    obtain ⟨k1, v1⟩ := g
    by_cases hk : gid = k1
    · subst hk
      simp only [List.lookup, beq_self_eq_true, Option.some.injEq] at h
      subst h
      simp only [List.map_cons]
      simp [List.lookup]
    · have hb : (gid == k1) = false := beq_eq_false_iff_ne.mpr hk
      have hne : ¬k1 = gid := fun hg => hk hg.symm
      simp only [List.lookup, hb] at h
      simp only [List.map_cons]
      rw [if_neg hne]
      simp only [List.lookup, hb]
      exact ih h

/-- **C4.** A media-group image message whose group identifier has no stored
`MediaGroup` is discarded without creating any group (the store is returned
untouched); once the group exists, the same message appends the image to that
group's image list, and nothing else in the store changes. -/
theorem media_group_fragment_discard_or_append (st : Store)
    (gid img : String) :
    (st.mediaGroups.lookup gid = Option.none →
      handle_media_group_fragment st gid img = st) ∧
    (∀ imgs, st.mediaGroups.lookup gid = some imgs →
      (handle_media_group_fragment st gid img).mediaGroups.lookup gid =
          some (imgs ++ [img]) ∧
        (handle_media_group_fragment st gid img).users = st.users ∧
        (handle_media_group_fragment st gid img).entities = st.entities ∧
        (handle_media_group_fragment st gid img).communities =
          st.communities) := by
  constructor
  · intro h
    unfold handle_media_group_fragment
    rw [h]
    rfl
  · intro imgs h
    unfold handle_media_group_fragment
    rw [h]
    simp only [Option.isSome_some, if_pos]
    exact ⟨lookup_map_append_image st.mediaGroups gid img h, rfl, rfl, rfl⟩

/-- Closed instance of `media_group_fragment_discard_or_append`: with only
`g1` stored, a fragment for `g2` leaves the store untouched and a fragment
for `g1` appends its image. -/
theorem media_group_fragment_discard_or_append_witness :
    handle_media_group_fragment demoStoreWithGroup "g2" "img1" =
      demoStoreWithGroup ∧
    (handle_media_group_fragment demoStoreWithGroup "g1" "img1").mediaGroups.lookup
        "g1" = some ["img0", "img1"] :=
  ⟨(media_group_fragment_discard_or_append demoStoreWithGroup "g2" "img1").1
      (by decide),
   ((media_group_fragment_discard_or_append demoStoreWithGroup "g1" "img1").2
      ["img0"] (by decide)).1⟩

end LocalsBot

namespace LocalsBot

/-! ### C5 — notification fan-out batching -/

theorem fan_out_batches_size_le :
    ∀ (n : Nat) (rs : List UserRec), rs.length ≤ n →
      ∀ b ∈ fan_out_batches rs, b.length ≤ notification_batch_size := by
  intro n
  induction n with
  | zero =>
    intro rs hlen b hb
    have : rs = [] := List.eq_nil_of_length_eq_zero (Nat.le_zero.mp hlen)
    subst this
    rw [fan_out_batches] at hb
    simp at hb
  | succ n ih =>
    intro rs hlen b hb
    match rs with
    | [] =>
      rw [fan_out_batches] at hb
      simp at hb
    | u :: rest =>
      rw [fan_out_batches] at hb
      rcases List.mem_cons.mp hb with hhead | htail
      · subst hhead
        simp [List.length_take]
      · refine ih _ ?_ b htail
        simp only [List.length_drop, List.length_cons]
        simp only [List.length_cons] at hlen
        simp [notification_batch_size]
        omega

theorem count_pause_map_send (l : List UserRec) :
    ((l.map fun v => FanEvent.send (v.chatId.getD 0)).count FanEvent.pause)
      = 0 := by
  induction l with
  | nil => rfl
  | cons v t ih => simp [List.count_cons, ih]

/-- For exactly 65 recipients the loop produces batches of 30, 30 and 5,
with 65 sends and exactly two pauses in its trace. -/
theorem fan_out_sixty_five (rs : List UserRec) (h : rs.length = 65) :
    (fan_out_batches rs).map List.length = [30, 30, 5] ∧
    (fan_out_trace rs).count FanEvent.pause = 2 ∧
    (fan_out_trace rs).length = 67 := by
  match rs, h with
  | u :: rest, h =>
    simp only [List.length_cons] at h
    have h64 : rest.length = 64 := by omega
    have hd1 : (List.drop notification_batch_size (u :: rest)).length = 35 := by
      simp [notification_batch_size, h64]
    match hrem1 : List.drop notification_batch_size (u :: rest), hd1 with
    | v :: rest2, hd1 =>
      simp only [List.length_cons] at hd1
      have h34 : rest2.length = 34 := by omega
      have hd2 : (List.drop notification_batch_size (v :: rest2)).length = 5 := by
        simp [notification_batch_size, h34]
      match hrem2 : List.drop notification_batch_size (v :: rest2), hd2 with
      | x :: rest3, hd2 =>
        simp only [List.length_cons] at hd2
        have h4 : rest3.length = 4 := by omega
        have hd3 : List.drop notification_batch_size (x :: rest3) = [] := by
          apply List.eq_nil_of_length_eq_zero
          simp [notification_batch_size, h4]
        have hb : fan_out_batches (u :: rest) =
            [(u :: rest).take notification_batch_size,
             (v :: rest2).take notification_batch_size,
             (x :: rest3).take notification_batch_size] := by
          rw [fan_out_batches, hrem1, fan_out_batches, hrem2, fan_out_batches,
            hd3, fan_out_batches]
        have ht : fan_out_trace (u :: rest) =
            ((u :: rest).take notification_batch_size).map
                (fun w => FanEvent.send (w.chatId.getD 0)) ++
              (FanEvent.pause ::
                (((v :: rest2).take notification_batch_size).map
                    (fun w => FanEvent.send (w.chatId.getD 0)) ++
                  (FanEvent.pause ::
                    ((x :: rest3).take notification_batch_size).map
                      (fun w => FanEvent.send (w.chatId.getD 0))))) := by
          rw [fan_out_trace, hrem1]
          rw [if_neg (by simp [hrem1])]
          rw [fan_out_trace, hrem2]
          rw [if_neg (by simp [hrem2])]
          rw [fan_out_trace, hd3]
          rw [if_pos (by simp)]
          simp
        have hlen1 : ((u :: rest).take notification_batch_size).length = 30 := by
          simp only [List.length_take, List.length_cons, h64]
          rfl
        have hlen2 : ((v :: rest2).take notification_batch_size).length = 30 := by
          simp only [List.length_take, List.length_cons, h34]
          rfl
        have hlen3 : ((x :: rest3).take notification_batch_size).length = 5 := by
          simp only [List.length_take, List.length_cons, h4]
          rfl
        refine ⟨?_, ?_, ?_⟩
        · rw [hb]
          simp [hlen1, hlen2, hlen3]
        · rw [ht]
          simp only [List.count_append, List.count_cons, count_pause_map_send]
          decide
        · rw [ht]
          simp only [List.length_append, List.length_cons, List.length_map,
            hlen1, hlen2, hlen3]

/-- **C5.** Over the eligible recipients — community members with
notifications enabled and a bound notification channel — the fan-out
partitions into batches of at most 30, sends one message per recipient
within a batch, and pauses once between consecutive batches: 65 eligible
recipients yield batches of 30, 30 and 5, a trace of 65 sends, and exactly
two inter-batch pauses. -/
theorem fan_out_batches_65 (users : List UserRec) (communityId : String)
    (h : (eligible_recipients users communityId).length = 65) :
    ((fan_out_batches (eligible_recipients users communityId)).map
        List.length = [30, 30, 5]) ∧
    (∀ b ∈ fan_out_batches (eligible_recipients users communityId),
      b.length ≤ notification_batch_size) ∧
    ((fan_out_trace (eligible_recipients users communityId)).count
        FanEvent.pause = 2) ∧
    ((fan_out_trace (eligible_recipients users communityId)).length = 67) := by
  obtain ⟨h1, h2, h3⟩ := fan_out_sixty_five _ h
  exact ⟨h1, fun b hb => fan_out_batches_size_le _ _ (Nat.le_refl _) b hb,
    h2, h3⟩

/-- Closed instance of `fan_out_batches_65`: 65 concrete eligible users. -/
theorem fan_out_batches_65_witness :
    (fan_out_batches (eligible_recipients demoUsers65 "c1")).map
        List.length = [30, 30, 5] ∧
    (fan_out_trace (eligible_recipients demoUsers65 "c1")).count
        FanEvent.pause = 2 :=
  ⟨(fan_out_batches_65 demoUsers65 "c1" (by decide)).1,
   (fan_out_batches_65 demoUsers65 "c1" (by decide)).2.2.1⟩

end LocalsBot

namespace LocalsBot

/-! ### C6 — messages without a matching hashtag -/

theorem upsert_frame (st : Store) (uid : Int) (cid : String) :
    (add_user_to_community_if_not_exists st uid cid).communities =
        st.communities ∧
      (add_user_to_community_if_not_exists st uid cid).mediaGroups =
        st.mediaGroups ∧
      (add_user_to_community_if_not_exists st uid cid).entities =
        st.entities := by
  unfold add_user_to_community_if_not_exists
  split
  · exact ⟨rfl, rfl, rfl⟩
  · split
    · exact ⟨rfl, rfl, rfl⟩
    · exact ⟨rfl, rfl, rfl⟩

theorem upsert_member {st : Store} {uid : Int} {cid : String} {u : UserRec}
    (hfind : st.users.find? (fun v => v.uid = uid) = some u)
    (hmem : cid ∈ u.communities) :
    add_user_to_community_if_not_exists st uid cid = st := by
  unfold add_user_to_community_if_not_exists
  rw [hfind]
  exact if_pos hmem

theorem handle_hashtag_noMatch (w : ExternalWorld) (st : Store)
    (msg : GroupMsg) (isCaption : Bool) {c : Community}
    (hc : get_community_by_chat_id st msg.chatId = some c)
    (hready : c.status.getD "SETUP" = "READY")
    (hnone : extract_entity_type_from_hashtag
      ((if isCaption then msg.caption else msg.text).getD "")
      (c.entitySettings.getD defaultEntitySettings) = Option.none) :
    handle_hashtag w st msg isCaption =
      if msg.username = "GroupAnonymousBot" then (st, Outcome.ignored)
      else (add_user_to_community_if_not_exists st msg.fromId c.id,
            Outcome.noMatch) := by
  by_cases hu : msg.username = "GroupAnonymousBot"
  · simp [handle_hashtag, hu]
  · simp [handle_hashtag, hu, hc, hready, hnone]

theorem handle_command_found (w : ExternalWorld) (st : Store) (msg : GroupMsg)
    (cmd : String) {c : Community}
    (hc : get_community_by_chat_id st msg.chatId = some c) :
    handle_command w st msg cmd =
      (if msg.username ≠ "GroupAnonymousBot" then
         add_user_to_community_if_not_exists st msg.fromId c.id
       else st,
       Outcome.commandHandled (String.mk (cmd.data.takeWhile (· ≠ '@')))) := by
  simp [handle_command, hc]

theorem handle_group_message_cases (w : ExternalWorld) (st : Store)
    (msg : GroupMsg) :
    handle_group_message w st msg = (st, Outcome.ignored) ∨
    (∃ cmd, handle_group_message w st msg = handle_command w st msg cmd) ∨
    (∃ b, handle_group_message w st msg = handle_hashtag w st msg b) := by
  simp only [handle_group_message]
  repeat' split
  all_goals
    first
      | exact Or.inl rfl
      | exact Or.inr (Or.inl ⟨_, rfl⟩)
      | exact Or.inr (Or.inr ⟨false, rfl⟩)
      | exact Or.inr (Or.inr ⟨true, rfl⟩)

/-- **C6** (amended).  For every message in a READY community whose text and
caption contain no hashtag matching the community's configured hashtags,
handling raises no error and leaves entities, communities and media groups
unchanged; the only possible stored-state change is the idempotent
registration of the sender as a community member — in particular, when the
sender is already a member of that community, the store is unchanged. -/
theorem no_match_message_frame (w : ExternalWorld) (st : Store)
    (msg : GroupMsg) (c : Community)
    (hc : get_community_by_chat_id st msg.chatId = some c)
    (hready : c.status.getD "SETUP" = "READY")
    (htext : extract_entity_type_from_hashtag (msg.text.getD "")
      (c.entitySettings.getD defaultEntitySettings) = Option.none)
    (hcap : extract_entity_type_from_hashtag (msg.caption.getD "")
      (c.entitySettings.getD defaultEntitySettings) = Option.none) :
    ((handle_group_message w st msg).1.entities = st.entities ∧
     (handle_group_message w st msg).1.communities = st.communities ∧
     (handle_group_message w st msg).1.mediaGroups = st.mediaGroups) ∧
    (∀ e, (handle_group_message w st msg).2 ≠ Outcome.raised e) ∧
    ((∃ u, st.users.find? (fun v => v.uid = msg.fromId) = some u ∧
        c.id ∈ u.communities) →
      (handle_group_message w st msg).1 = st) := by
  have hframe := upsert_frame st msg.fromId c.id
  rcases handle_group_message_cases w st msg with hcase | ⟨cmd, hcase⟩ |
      ⟨b, hcase⟩
  · rw [hcase]
    exact ⟨⟨rfl, rfl, rfl⟩, fun e => by simp, fun _ => rfl⟩
  · rw [hcase, handle_command_found w st msg cmd hc]
    by_cases hu : msg.username ≠ "GroupAnonymousBot"
    · rw [if_pos hu]
      refine ⟨⟨hframe.2.2, hframe.1, hframe.2.1⟩, fun e => by simp, ?_⟩
      rintro ⟨u, hfind, hmem⟩
      exact upsert_member hfind hmem
    · rw [if_neg hu]
      exact ⟨⟨rfl, rfl, rfl⟩, fun e => by simp, fun _ => rfl⟩
  · have hnone : extract_entity_type_from_hashtag
        ((if b then msg.caption else msg.text).getD "")
        (c.entitySettings.getD defaultEntitySettings) = Option.none := by
      cases b
      · simpa using htext
      · simpa using hcap
    rw [hcase, handle_hashtag_noMatch w st msg b hc hready hnone]
    by_cases hu : msg.username = "GroupAnonymousBot"
    · rw [if_pos hu]
      exact ⟨⟨rfl, rfl, rfl⟩, fun e => by simp, fun _ => rfl⟩
    · rw [if_neg hu]
      refine ⟨⟨hframe.2.2, hframe.1, hframe.2.1⟩, fun e => by simp, ?_⟩
      rintro ⟨u, hfind, hmem⟩
      exact upsert_member hfind hmem

/-- **C6** (counterexample).  In a READY community, a message whose only
hashtag `#foo` matches no configured hashtag is *not* a stored-state no-op:
the sender (not yet a member) is added to the community's membership. -/
theorem no_match_message_changes_membership :
    (get_community_by_chat_id demoStore 100 = some demoCommunity) ∧
    (demoCommunity.status.getD "SETUP" = "READY") ∧
    (extract_entity_type_from_hashtag "hello #foo" defaultEntitySettings =
      Option.none) ∧
    ((handle_group_message demoWorld demoStore demoMsg).1.users =
      [⟨7, ["c1"], Option.none, false⟩]) ∧
    ((handle_group_message demoWorld demoStore demoMsg).1 ≠ demoStore) :=
  ⟨by decide, by decide, by decide, by decide, by decide⟩

/-- Closed instance of `no_match_message_frame`: when the sender is already a
member, the no-match message leaves the store untouched. -/
theorem no_match_message_frame_witness :
    (handle_group_message demoWorld demoStoreMember demoMsg).1 =
      demoStoreMember :=
  (no_match_message_frame demoWorld demoStoreMember demoMsg demoCommunity
      (by decide) (by decide) (by decide) (by decide)).2.2
    ⟨⟨7, ["c1"], Option.none, false⟩, by decide, by decide⟩

end LocalsBot

namespace LocalsBot

/-! ### C8 — media-group reference of imageless entities -/

theorem populate_preserves_some (w : ExternalWorld) (msg : GroupMsg)
    (cid : String) :
    ∀ (sch : Structure) (info : List (String × PyVal)) {k : String}
      {v : PyVal}, info.lookup k = some v →
      (populate_missing_fields w msg cid sch info).lookup k = some v
  | [], _, _, _, h => h
  | kv :: rest, info, k, v, h => by
    by_cases hs : (info.lookup kv.1).isSome
    · have hstep : populate_missing_fields w msg cid (kv :: rest) info =
          populate_missing_fields w msg cid rest info := by
        simp [populate_missing_fields, hs]
      rw [hstep]
      exact populate_preserves_some w msg cid rest info h
    · have hstep : populate_missing_fields w msg cid (kv :: rest) info =
          populate_missing_fields w msg cid rest
            (info ++ [(kv.1, populate_value w msg cid kv.1 kv.2)]) := by
        simp [populate_missing_fields, hs]
      rw [hstep]
      exact populate_preserves_some w msg cid rest _
        (lookup_append_of_some _ h)

theorem populate_lookup_first (w : ExternalWorld) (msg : GroupMsg)
    (cid : String) :
    ∀ (sch : Structure) (info : List (String × PyVal)) {k : String}
      {spec : FieldSpec}, info.lookup k = Option.none →
      sch.lookup k = some spec →
      (populate_missing_fields w msg cid sch info).lookup k =
        some (populate_value w msg cid k spec)
  | [], _, _, _, _, hsch => by simp at hsch
  | (k1, s1) :: rest, info, k, spec, hinfo, hsch => by
    by_cases hk : k = k1
    · subst hk
      have hspec : s1 = spec := by simpa [List.lookup] using hsch
      subst hspec
      have hs : ¬(info.lookup k).isSome := by simp [hinfo]
      have hstep : populate_missing_fields w msg cid ((k, s1) :: rest) info =
          populate_missing_fields w msg cid rest
            (info ++ [(k, populate_value w msg cid k s1)]) := by
        simp [populate_missing_fields, hs]
      rw [hstep]
      apply populate_preserves_some
      rw [lookup_append_of_none _ hinfo]
      simp [List.lookup]
    · have hb : (k == k1) = false := beq_eq_false_iff_ne.mpr hk
      have hsch2 : rest.lookup k = some spec := by
        simpa [List.lookup, hb] using hsch
      by_cases hs : (info.lookup k1).isSome
      · have hstep : populate_missing_fields w msg cid ((k1, s1) :: rest)
            info = populate_missing_fields w msg cid rest info := by
          simp [populate_missing_fields, hs]
        rw [hstep]
        exact populate_lookup_first w msg cid rest info hinfo hsch2
      · have hinfo2 : (info ++
            [(k1, populate_value w msg cid k1 s1)]).lookup k =
              Option.none := by
          rw [lookup_append_of_none _ hinfo]
          simp [List.lookup, hb]
        have hstep : populate_missing_fields w msg cid ((k1, s1) :: rest)
            info = populate_missing_fields w msg cid rest
              (info ++ [(k1, populate_value w msg cid k1 s1)]) := by
          simp [populate_missing_fields, hs]
        rw [hstep]
        exact populate_lookup_first w msg cid rest _ hinfo2 hsch2

/-- **C8** (amended).  For every entity populated by the hashtag ingestion
path from a message carrying no image and no platform media-group identifier
(and whose extraction result does not itself contain a `mediaGroupId` key),
the `mediaGroupId` field is *not* null/absent: it is filled by the schema's
default supplier with a freshly generated uuid string, which references no
existing media group. -/
theorem media_group_id_defaults_to_fresh_uuid (w : ExternalWorld)
    (msg : GroupMsg) (cid : String) (extracted : List (String × PyVal))
    (sch : Structure)
    (hsch : sch = LocalsItem.get_structure ∨
      sch = LocalsService.get_structure ∨
      sch = LocalsEvent.get_structure ∨ sch = LocalsNews.get_structure)
    (hmg : msg.mediaGroupId = Option.none)
    (hx : extracted.lookup "mediaGroupId" = Option.none) :
    (populate_missing_fields w msg cid sch extracted).lookup "mediaGroupId" =
      some (PyVal.str (w.uuidFor "mediaGroupId")) ∧
    PyVal.str (w.uuidFor "mediaGroupId") ≠ PyVal.none := by
  have hlookup : sch.lookup "mediaGroupId" =
      some ⟨.str, .freshUuid, false, Option.none, Option.none⟩ := by
    rcases hsch with h | h | h | h <;> subst h <;> rfl
  have hval : populate_value w msg cid "mediaGroupId"
      ⟨.str, .freshUuid, false, Option.none, Option.none⟩ =
        PyVal.str (w.uuidFor "mediaGroupId") := by
    simp [populate_value, hmg, evalDefault]
  rw [populate_lookup_first w msg cid sch extracted hx hlookup, hval]
  exact ⟨rfl, by simp⟩

/-- **C8** (counterexample).  Concretely: populating an item from a message
with no image and no media-group identifier, with an empty extraction result,
puts the fresh uuid — not null — into `mediaGroupId`, and that value flows
into the document the kind-specific create operation inserts. -/
theorem entity_without_image_has_media_group_reference :
    ((populate_missing_fields demoWorld demoMsg "c1" LocalsItem.get_structure
        []).lookup "mediaGroupId" = some (PyVal.str "fresh-uuid")) ∧
    ((create_entity_doc "items"
        (populate_missing_fields demoWorld demoMsg "c1"
          LocalsItem.get_structure [])).toOption.map
        (fun d => d.lookup "mediaGroupId") =
      some (some (PyVal.str "fresh-uuid"))) ∧
    (PyVal.str "fresh-uuid" ≠ PyVal.none) :=
  ⟨by decide, by decide, by decide⟩

/-- Closed instance of `media_group_id_defaults_to_fresh_uuid`. -/
theorem media_group_id_defaults_to_fresh_uuid_witness :
    (populate_missing_fields demoWorld demoMsg "c1" LocalsNews.get_structure
        []).lookup "mediaGroupId" = some (PyVal.str "fresh-uuid") :=
  (media_group_id_defaults_to_fresh_uuid demoWorld demoMsg "c1" []
      LocalsNews.get_structure (Or.inr (Or.inr (Or.inr rfl)))
      (by decide) (by decide)).1

/-! ### C9 — persistence failures are contained -/

/-- **C9.**  An exception during entity persistence is caught inside the
handler's `try`/`except`: the store is left as it was, the outcome is
`createFailed`, and no `raised` outcome can come out of the persistence step;
independently, the webhook endpoint catches everything and answers
`{"status": "ok"}, 200` for every inbound message, so one failing message
cannot prevent later ones from being processed. -/
theorem persistence_errors_swallowed_webhook_ok :
    (∀ (st : Store) (collection e : String),
      try_persist st collection (.error e) = (st, Outcome.createFailed)) ∧
    (∀ (st : Store) (collection : String) (r : Except String Doc)
        (e : String), (try_persist st collection r).2 ≠ Outcome.raised e) ∧
    (∀ (w : ExternalWorld) (st : Store) (msg : GroupMsg),
      (handle_telegram_event w st msg).2 = (200, "ok")) := by
  refine ⟨fun st c e => rfl, fun st c r e => ?_, fun w st msg => rfl⟩
  cases r <;> simp [try_persist]

end LocalsBot

namespace LocalsBot

/-! ### C10 — `None` update parameters -/

theorem lookup_mem {α : Type} {l : List (String × α)} {k : String} {v : α}
    (h : l.lookup k = some v) : (k, v) ∈ l := by
  induction l with
  | nil => simp at h
  | cons kv t ih =>
    by_cases hk : k = kv.1
    · have hb : (k == kv.1) = true := beq_iff_eq.mpr hk
      simp only [List.lookup, hb, Option.some.injEq] at h
      subst hk
      subst h
      exact List.mem_cons_self _ _
    · have hb : (k == kv.1) = false := beq_eq_false_iff_ne.mpr hk
      simp only [List.lookup, hb] at h
      exact List.mem_cons_of_mem _ (ih h)

theorem filter_not_none_lookup_none {kwargs : List (String × PyVal)}
    {k : String} (hnodup : (kwargs.map Prod.fst).Nodup)
    (h : kwargs.lookup k = some PyVal.none) :
    (kwargs.filter fun kv => !kv.2.isNone).lookup k = Option.none := by
  induction kwargs with
  | nil => simp at h
  | cons kv t ih =>
    have hnodup2 : (kv.1 :: t.map Prod.fst).Nodup := by
      rw [List.map_cons] at hnodup
      exact hnodup
    obtain ⟨hhead, htail⟩ := List.nodup_cons.mp hnodup2
    by_cases hk : k = kv.1
    · subst hk
      simp only [List.lookup, beq_self_eq_true, Option.some.injEq] at h
      have hdrop : (kv.2).isNone = true := by rw [h]; rfl
      simp only [List.filter, hdrop, Bool.not_true]
      cases hl : (t.filter fun kv => !kv.2.isNone).lookup kv.1 with
      | none => rfl
      | some v =>
        exfalso
        have hmemf := lookup_mem hl
        have hmem := List.mem_of_mem_filter hmemf
        exact hhead (List.mem_map.mpr ⟨(kv.1, v), hmem, rfl⟩)
    · have hb : (k == kv.1) = false := beq_eq_false_iff_ne.mpr hk
      simp only [List.lookup, hb] at h
      by_cases hkeep : !(kv.2).isNone
      · simp only [List.filter, hkeep, List.lookup, hb]
        exact ih htail h
      · simp only [List.filter, Bool.not_eq_true', Bool.not_eq_true] at hkeep
        simp only [List.filter, hkeep]
        exact ih htail h

theorem update_first_snd {p : Doc → Bool} (upd : List (String × PyVal))
    {coll : List Doc} {d : Doc} (h : coll.find? p = some d) :
    (update_first p upd coll).2 = some (dictUpdate d upd) := by
  induction coll with
  | nil => simp at h
  | cons d1 rest ih =>
    by_cases hp : p d1
    · rw [List.find?_cons_of_pos _ hp] at h
      obtain rfl : d1 = d := by injection h
      simp [update_first, hp]
    · rw [List.find?_cons_of_neg _ hp] at h
      simp [update_first, hp, ih h]

theorem filter_values_not_none {kwargs : List (String × PyVal)} {k : String}
    {v : PyVal}
    (h : (kwargs.filter fun kv => !kv.2.isNone).lookup k = some v) :
    v.isNone = false := by
  have hmem := List.mem_of_mem_filter (lookup_mem h)
  have hprop := List.of_mem_filter (lookup_mem h)
  simpa using hprop

/-- **C10.**  In `BaseEntity.update` on an existing entity, keyword arguments
passed as `None` leave the corresponding stored fields unchanged; when every
argument is `None` the collection is untouched and the stored entity is
returned as-is (in its formatted representation); and no update can ever set
a field to null: the operation returns the stored document with exactly the
non-`None` arguments applied, and a field of the updated document is null
only if it was already null before. -/
theorem entity_update_ignores_none_params (coll : List Doc)
    (id communityId : String) (userId : Int)
    (kwargs : List (String × PyVal)) (d : Doc)
    (hfind : coll.find?
      (fun x => matches_update_filter x id communityId userId) = some d)
    (hnodup : (kwargs.map Prod.fst).Nodup) :
    ((base_entity_update coll id communityId userId kwargs).2 =
      .ok (format_entity (updated_doc d kwargs))) ∧
    (∀ k, kwargs.lookup k = some PyVal.none →
      (updated_doc d kwargs).lookup k = d.lookup k) ∧
    ((∀ kv ∈ kwargs, kv.2 = PyVal.none) →
      base_entity_update coll id communityId userId kwargs =
        (coll, .ok (format_entity d))) ∧
    (∀ k, (updated_doc d kwargs).lookup k = some PyVal.none →
      d.lookup k = some PyVal.none) := by
  have hupdated_empty : (kwargs.filter fun kv => !kv.2.isNone) = [] →
      updated_doc d kwargs = d := by
    intro hnil
    unfold updated_doc
    rw [hnil]
    exact dictUpdate_nil_right d
  refine ⟨?_, ?_, ?_, ?_⟩
  · unfold base_entity_update
    by_cases hempty : (kwargs.filter fun kv => !kv.2.isNone).isEmpty
    · rw [if_pos hempty, hfind]
      rw [hupdated_empty (List.isEmpty_iff.mp hempty)]
    · rw [if_neg hempty]
      have h2 := update_first_snd
        (kwargs.filter fun kv => !kv.2.isNone) hfind
      rcases hef : update_first
          (fun x => matches_update_filter x id communityId userId)
          (kwargs.filter fun kv => !kv.2.isNone) coll with ⟨c2, o⟩
      rw [hef] at h2
      simp only at h2
      subst h2
      rfl
  · intro k hk
    have hnone := filter_not_none_lookup_none hnodup hk
    unfold updated_doc
    cases hd : d.lookup k with
    | none => rw [dictUpdate_lookup_of_base_none _ hd, hnone]
    | some w =>
      rw [dictUpdate_lookup_of_base_some _ hd, hnone]
      rfl
  · intro hall
    have hnil : (kwargs.filter fun kv => !kv.2.isNone) = [] := by
      rw [List.filter_eq_nil_iff]
      intro kv hm
      simp [hall kv hm, PyVal.isNone]
    unfold base_entity_update
    rw [if_pos (by simp [hnil]), hfind]
  · intro k hk
    unfold updated_doc at hk
    cases hd : d.lookup k with
    | none =>
      rw [dictUpdate_lookup_of_base_none _ hd] at hk
      have := filter_values_not_none hk
      simp [PyVal.isNone] at this
    | some w =>
      rw [dictUpdate_lookup_of_base_some _ hd] at hk
      cases hu : (kwargs.filter fun kv => !kv.2.isNone).lookup k with
      | none =>
        rw [hu] at hk
        simp only [Option.getD_some, Option.getD_none, Option.some.injEq] at hk
        rw [hk]
      | some v =>
        have := filter_values_not_none hu
        rw [hu] at hk
        simp only [Option.getD_some, Option.some.injEq] at hk
        subst hk
        simp [PyVal.isNone] at this

/-- Closed instance of `entity_update_ignores_none_params`: an all-`None`
update of a stored item changes nothing and returns the stored entity. -/
theorem entity_update_ignores_none_params_witness :
    base_entity_update [demoDoc] "e1" "c1" 7
        [("title", PyVal.none), ("description", PyVal.none),
         ("price", PyVal.none), ("currency", PyVal.none),
         ("category", PyVal.none)] =
      ([demoDoc], .ok (format_entity demoDoc)) :=
  (entity_update_ignores_none_params [demoDoc] "e1" "c1" 7
      [("title", PyVal.none), ("description", PyVal.none),
       ("price", PyVal.none), ("currency", PyVal.none),
       ("category", PyVal.none)] demoDoc (by decide) (by decide)).2.2.1
    (by decide)

end LocalsBot
